import Mathlib

/-!
Shallow embedding of the Flask health-check service in src/main.py.

The program loads two environment variables, normalizes the base URL by
stripping trailing slashes, exposes a liveness route and a proxy health
route, and performs one diagnostic probe at startup before serving.
Network I/O is modelled by an oracle function together with a log of the
requests issued; JSON responses are modelled structurally as a Json tree
(Flask's jsonify builds the object from the given key/value pairs; we
compare bodies structurally, not byte-for-byte).
-/

/-- A JSON value, as constructed by jsonify in the handlers. -/
inductive Json where
  | bool (b : Bool)
  | nat (n : Nat)
  | str (s : String)
  | obj (fields : List (String × Json))

/-- Field lookup in a JSON object's field list (first match wins). -/
def lookupField : List (String × Json) → String → Option Json
  | [], _ => none
  | (k, v) :: rest, key => if k = key then some v else lookupField rest key

/-- An upstream HTTP response as seen through the requests library:
status code plus decoded body text. -/
structure UpstreamResponse where
  status_code : Nat
  text : String

/-- The ok flag of a requests Response: raise_for_status raises exactly
for 4xx and 5xx status codes, so ok is true iff the code is outside
the range 400..599. -/
def UpstreamResponse.ok (r : UpstreamResponse) : Bool :=
  !(decide (400 ≤ r.status_code) && decide (r.status_code < 600))

/-- An outbound HTTP request, as built by ping_unipile (src/main.py lines
40-46): method, URL, header list, timeout in seconds. -/
structure HttpRequest where
  method : String
  url : String
  headers : List (String × String)
  timeout : Nat

/-- ASCII lowercase of a character, for case-insensitive header names. -/
def asciiLower (c : Char) : Char :=
  if 'A' ≤ c ∧ c ≤ 'Z' then Char.ofNat (c.toNat + 32) else c

/-- Lowercase an ASCII header name. -/
def lowerName (s : String) : String :=
  String.mk (s.data.map asciiLower)

/-- Case-insensitive header lookup (HTTP header names are
case-insensitive). -/
def headerLookup (hs : List (String × String)) (k : String) : Option String :=
  (hs.find? (fun p => lowerName p.1 == lowerName k)).map (fun p => p.2)

/-- The network world: an oracle deciding how each request is answered
(a response, or the message of the exception requests raises), and the
log of requests issued so far. -/
structure NetWorld where
  oracle : HttpRequest → Except String UpstreamResponse
  log : List HttpRequest

/-- Issue one HTTP request: record it in the log and let the oracle
answer it (requests.get either returns a Response or raises). -/
def doRequest (w : NetWorld) (req : HttpRequest) :
    NetWorld × Except String UpstreamResponse :=
  (NetWorld.mk w.oracle (w.log ++ [req]), w.oracle req)

/-- True iff the string ends in a slash character. -/
def endsInSlash (s : String) : Bool :=
  s.data.getLast? == some '/'

/-- Is this character a slash? -/
def isSlash (c : Char) : Bool :=
  c == '/'

/-- Python str.rstrip with the single-character set slash: remove all
trailing slash characters (src/main.py line 14). -/
def rstripSlash (s : String) : String :=
  String.mk ((s.data.reverse.dropWhile isSlash).reverse)

/-- The immutable configuration built at module load (src/main.py lines
14-21). -/
structure Config where
  base_url : String
  api_key : String

/-- The os.getenv call with a default: the environment maps names to
optional values. -/
def envGet (env : String → Option String) (k : String) : String :=
  (env k).getD ""

/-- The module-level configuration loading of src/main.py lines 14-21:
read UNIPILE_DSN (stripping trailing slashes) and UNIPILE_API_KEY, and
raise RuntimeError when either is falsy (the empty string). -/
def loadConfig (env : String → Option String) : Except String Config :=
  let dsn := rstripSlash (envGet env "UNIPILE_DSN")
  let key := envGet env "UNIPILE_API_KEY"
  if dsn = "" ∨ key = "" then
    Except.error "Missing UNIPILE_DSN or UNIPILE_API_KEY in .env"
  else
    Except.ok (Config.mk dsn key)

/-- The request built by ping_unipile (src/main.py lines 40-46): GET on
base_url followed by the accounts path, with the API key header and an
accept header, 15-second timeout. -/
def ping_unipile_request (cfg : Config) : HttpRequest :=
  HttpRequest.mk "GET" (cfg.base_url ++ "/api/v1/accounts")
    [("X-API-KEY", cfg.api_key), ("accept", "application/json")]
    15

/-- ping_unipile (src/main.py lines 35-47): build the request, issue it
once via requests.get, and return the response; any exception from the
request propagates (there is no handler in this function). -/
def ping_unipile (cfg : Config) (w : NetWorld) :
    NetWorld × Except String UpstreamResponse :=
  doRequest w (ping_unipile_request cfg)

/-- The home route (src/main.py lines 54-64): jsonify of a fixed object,
with Flask's default outer status 200. The world is returned unchanged:
the handler performs no request. -/
def home (w : NetWorld) : NetWorld × (Json × Nat) :=
  (w, (Json.obj
        [("ok", Json.bool true),
         ("message", Json.str "Flask server is running"),
         ("next_step", Json.str "/health/unipile")],
       200))

/-- The health route (src/main.py lines 67-84): call ping_unipile inside
try; on a response, return the ok/status_code/response envelope with
outer status 200 when r.ok else the upstream status; on an exception,
return the ok/error envelope with outer status 500. -/
def health_unipile (cfg : Config) (w : NetWorld) : NetWorld × (Json × Nat) :=
  let res := ping_unipile cfg w
  match res.2 with
  | Except.ok r =>
      (res.1,
       (Json.obj
          [("ok", Json.bool r.ok),
           ("status_code", Json.nat r.status_code),
           ("response", Json.str r.text)],
        if r.ok then 200 else r.status_code))
  | Except.error e =>
      (res.1, (Json.obj [("ok", Json.bool false), ("error", Json.str e)], 500))

/-- Console events of the startup block (src/main.py lines 91-101). -/
inductive StartupEvent where
  | logSuccess (status : Nat) (text : String)
  | logFailure (err : String)
  | serve (port : Nat)

/-- The main block (src/main.py lines 91-101): ping once inside try,
print the status code and body on success or the failure otherwise, and
in either case start the server on port 5000. -/
def startup (cfg : Config) (w : NetWorld) : NetWorld × List StartupEvent :=
  let res := ping_unipile cfg w
  match res.2 with
  | Except.ok r =>
      (res.1, [StartupEvent.logSuccess r.status_code r.text, StartupEvent.serve 5000])
  | Except.error e =>
      (res.1, [StartupEvent.logFailure e, StartupEvent.serve 5000])

/-- The whole process: module-level configuration loading, then the main
block; a RuntimeError at load aborts before any request or event. -/
def process_main (env : String → Option String) (w : NetWorld) :
    NetWorld × Except String (List StartupEvent) :=
  match loadConfig env with
  | Except.error e => (w, Except.error e)
  | Except.ok cfg =>
      let res := startup cfg w
      (res.1, Except.ok res.2)

/-- Is the status code a 2xx success code? (Spec vocabulary.) -/
def is2xx (n : Nat) : Bool :=
  decide (200 ≤ n) && decide (n < 300)

/-!  Helper lemmas about the ok flag and about rstripSlash. -/

lemma ok_true_of_not_error_range (r : UpstreamResponse)
    (h : r.status_code < 400) : r.ok = true := by
  simp [UpstreamResponse.ok]
  omega

lemma ok_false_of_error_range (r : UpstreamResponse)
    (h1 : 400 ≤ r.status_code) (h2 : r.status_code < 600) : r.ok = false := by
  simp [UpstreamResponse.ok]
  omega

lemma dropWhile_replicate_append (p : Char → Bool) (a : Char) (h : p a = true)
    (n : Nat) (xs : List Char) :
    List.dropWhile p (List.replicate n a ++ xs) = List.dropWhile p xs := by
  induction n with
  | zero => rfl
  | succ m ih => simp [List.replicate_succ, List.dropWhile_cons, h, ih]

lemma dropWhile_idem (p : Char → Bool) (l : List Char) :
    List.dropWhile p (List.dropWhile p l) = List.dropWhile p l := by
  induction l with
  | nil => rfl
  | cons a t ih =>
    cases ha : p a with
    | true => simp [List.dropWhile_cons, ha, ih]
    | false => simp [List.dropWhile_cons, ha]

lemma dropWhile_head_not {α : Type} (p : α → Bool) (l : List α) (a : α)
    (h : (List.dropWhile p l).head? = some a) : p a = false := by
  induction l with
  | nil => simp [List.dropWhile] at h
  | cons b t ih =>
    cases hb : p b with
    | true =>
      rw [List.dropWhile_cons, if_pos hb] at h
      exact ih h
    | false =>
      rw [List.dropWhile_cons, if_neg (by simp [hb])] at h
      simp at h
      rw [← h]
      exact hb

lemma rstripSlash_no_trailing (s : String) : endsInSlash (rstripSlash s) = false := by
  simp only [endsInSlash, rstripSlash, beq_eq_false_iff_ne, ne_eq]
  intro hcontra
  rw [List.getLast?_reverse] at hcontra
  have := dropWhile_head_not isSlash s.data.reverse '/' hcontra
  simp [isSlash] at this

/-- A string of n slash characters. -/
def slashes (n : Nat) : String :=
  String.mk (List.replicate n '/')

lemma rstripSlash_append_slashes (t : String) (n : Nat)
    (h : endsInSlash t = false) : rstripSlash (t ++ slashes n) = t := by
  obtain ⟨l⟩ := t
  have hdata : (String.mk l ++ slashes n).data = l ++ List.replicate n '/' := rfl
  unfold rstripSlash
  rw [hdata, List.reverse_append, List.reverse_replicate,
    dropWhile_replicate_append isSlash '/' rfl]
  have hself : List.dropWhile isSlash l.reverse = l.reverse := by
    cases hl : l.reverse with
    | nil => rfl
    | cons a tl =>
      have hlast : l.getLast? = some a := by
        rw [← List.head?_reverse, hl]
        rfl
      have ha : isSlash a = false := by
        simp only [endsInSlash, beq_eq_false_iff_ne, ne_eq] at h
        simp only [isSlash, beq_eq_false_iff_ne, ne_eq]
        intro hc
        apply h
        rw [hlast, hc]
      simp [List.dropWhile_cons, ha]
  rw [hself, List.reverse_reverse]

/-!  Concrete fixtures used in counterexamples and witnesses. -/

/-- A sample configuration. -/
def cfg0 : Config :=
  Config.mk "https://api.example.com" "secret123"

/-- A world whose upstream always answers 304 Not Modified. -/
def w304 : NetWorld :=
  NetWorld.mk (fun _ => Except.ok (UpstreamResponse.mk 304 "")) []

/-- A world whose upstream always answers 401 Unauthorized. -/
def w401 : NetWorld :=
  NetWorld.mk (fun _ => Except.ok (UpstreamResponse.mk 401 "denied")) []

/-- A world whose upstream always answers 200 with body alpha. -/
def w200 : NetWorld :=
  NetWorld.mk (fun _ => Except.ok (UpstreamResponse.mk 200 "alpha")) []

/-- A world where every request raises an exception with empty message. -/
def wEmptyErr : NetWorld :=
  NetWorld.mk (fun _ => Except.error "") []

/-- A world where every request raises an exception with message timeout. -/
def wFail : NetWorld :=
  NetWorld.mk (fun _ => Except.error "timeout") []

/-- A world where every request raises an exception with message boom. -/
def wBoom : NetWorld :=
  NetWorld.mk (fun _ => Except.error "boom") []

/-- An empty environment: both variables absent. -/
def envNone : String → Option String :=
  fun _ => none

/-- The scenario environment of the spec: DSN with a trailing slash and
the key secret123. -/
def envEx : String → Option String :=
  fun k =>
    if k = "UNIPILE_DSN" then some "https://api.example.com/"
    else if k = "UNIPILE_API_KEY" then some "secret123"
    else none

/-- A quiet world for configuration-only statements. -/
def w0 : NetWorld :=
  NetWorld.mk (fun _ => Except.error "down") []

/-- The upstream body of the spec scenario. -/
def itemsBody : String :=
  "\x7b\"items\":[]\x7d"

/-- The scenario configuration after normalization. -/
def cfg8 : Config :=
  Config.mk "https://api.example.com" "secret123"

/-- A world whose upstream answers 200 with the scenario body. -/
def w8 : NetWorld :=
  NetWorld.mk (fun _ => Except.ok (UpstreamResponse.mk 200 itemsBody)) []

/-!  Claim theorems. -/

/-- Claim C1, counterexample: a 304 Not Modified upstream response is
not 2xx, yet the handler answers with outer status 200 and ok true,
because the requests ok flag is true for every code below 400. -/
theorem health_redirect_counterexample :
    w304.oracle (ping_unipile_request cfg0) = Except.ok (UpstreamResponse.mk 304 "") ∧
    is2xx 304 = false ∧
    (health_unipile cfg0 w304).2 =
      (Json.obj
        [("ok", Json.bool true),
         ("status_code", Json.nat 304),
         ("response", Json.str "")],
       200) ∧
    ¬((health_unipile cfg0 w304).2.2 = 304) := by
  refine ⟨rfl, rfl, rfl, ?_⟩
  intro hcontra
  simp [health_unipile, ping_unipile, doRequest, w304, cfg0, UpstreamResponse.ok] at hcontra

/-- Claim C1 (amended): for every upstream response whose status code is
in 400..599 (exactly the codes the requests library marks not ok), the
handler returns outer status equal to the upstream status and an ok
field of false, with the upstream status code and body embedded. -/
theorem health_unipile_error_status (cfg : Config) (w : NetWorld)
    (r : UpstreamResponse)
    (hor : w.oracle (ping_unipile_request cfg) = Except.ok r)
    (h1 : 400 ≤ r.status_code) (h2 : r.status_code < 600) :
    (health_unipile cfg w).2 =
      (Json.obj
        [("ok", Json.bool false),
         ("status_code", Json.nat r.status_code),
         ("response", Json.str r.text)],
       r.status_code) := by
  have hok : r.ok = false := ok_false_of_error_range r h1 h2
  simp [health_unipile, ping_unipile, doRequest, hor, hok]

/-- Claim C1, witness: a 401 upstream response yields outer status 401
and ok false. -/
theorem health_unipile_error_status_witness :
    (health_unipile cfg0 w401).2 =
      (Json.obj
        [("ok", Json.bool false),
         ("status_code", Json.nat 401),
         ("response", Json.str "denied")],
       401) :=
  health_unipile_error_status cfg0 w401 (UpstreamResponse.mk 401 "denied")
    rfl (by decide) (by decide)

/-- Claim C2: for every 2xx upstream response, the handler returns outer
status 200 and the envelope with ok true, the upstream status code, and
the upstream body text. -/
theorem health_unipile_success (cfg : Config) (w : NetWorld)
    (r : UpstreamResponse)
    (hor : w.oracle (ping_unipile_request cfg) = Except.ok r)
    (h1 : 200 ≤ r.status_code) (h2 : r.status_code < 300) :
    (health_unipile cfg w).2 =
      (Json.obj
        [("ok", Json.bool true),
         ("status_code", Json.nat r.status_code),
         ("response", Json.str r.text)],
       200) := by
  have hok : r.ok = true := ok_true_of_not_error_range r (by omega)
  simp [health_unipile, ping_unipile, doRequest, hor, hok]

/-- Claim C2, witness: a 200 upstream response with body alpha yields
outer status 200 and the expected envelope. -/
theorem health_unipile_success_witness :
    (health_unipile cfg0 w200).2 =
      (Json.obj
        [("ok", Json.bool true),
         ("status_code", Json.nat 200),
         ("response", Json.str "alpha")],
       200) :=
  health_unipile_success cfg0 w200 (UpstreamResponse.mk 200 "alpha")
    rfl (by decide) (by decide)

/-- Claim C3, counterexample: an exception whose message is the empty
string is answered with outer status 500 and ok false, but the error
field is the empty string, not a non-empty one: the handler copies the
exception message verbatim and guarantees nothing about its length. -/
theorem health_empty_error_counterexample :
    wEmptyErr.oracle (ping_unipile_request cfg0) = Except.error "" ∧
    (health_unipile cfg0 wEmptyErr).2 =
      (Json.obj [("ok", Json.bool false), ("error", Json.str "")], 500) ∧
    lookupField [("ok", Json.bool false), ("error", Json.str "")] "error"
      = some (Json.str "") ∧
    ("" : String).length = 0 :=
  ⟨rfl, rfl, rfl, rfl⟩

/-- Claim C3 (amended): for every exception raised during the probe, the
handler returns outer status 500 and the JSON body with ok false and an
error field equal to the exception message; the message is copied
verbatim, so it is non-empty exactly when the exception message is. -/
theorem health_unipile_exception (cfg : Config) (w : NetWorld) (e : String)
    (hor : w.oracle (ping_unipile_request cfg) = Except.error e) :
    (health_unipile cfg w).2 =
      (Json.obj [("ok", Json.bool false), ("error", Json.str e)], 500) := by
  simp [health_unipile, ping_unipile, doRequest, hor]

/-- Claim C3, witness: an exception with message timeout yields outer
status 500 and the error envelope carrying that message. -/
theorem health_unipile_exception_witness :
    (health_unipile cfg0 wFail).2 =
      (Json.obj [("ok", Json.bool false), ("error", Json.str "timeout")], 500) :=
  health_unipile_exception cfg0 wFail "timeout" rfl

/-- Claim C4: the home route always answers 200 with the fixed body, it
leaves the world unchanged (no side effects) and never consults the
upstream oracle. -/
theorem home_fixed (w : NetWorld) :
    home w =
      (w,
       (Json.obj
          [("ok", Json.bool true),
           ("message", Json.str "Flask server is running"),
           ("next_step", Json.str "/health/unipile")],
        200)) :=
  rfl

/-- Claim C5: for every configuration, ping_unipile appends exactly one
request to the log; that request is a GET on base_url followed by the
accounts path, carries the API key and an accept header of
application/json (header names compared case-insensitively, as HTTP
prescribes), and has a 15-second timeout; and when the network answers
with an exception, ping_unipile propagates it unchanged. -/
theorem ping_unipile_contract (cfg : Config) (w : NetWorld) :
    (ping_unipile cfg w).1.log = w.log ++ [ping_unipile_request cfg] ∧
    (ping_unipile_request cfg).method = "GET" ∧
    (ping_unipile_request cfg).url = cfg.base_url ++ "/api/v1/accounts" ∧
    headerLookup (ping_unipile_request cfg).headers "X-API-KEY" = some cfg.api_key ∧
    headerLookup (ping_unipile_request cfg).headers "Accept" = some "application/json" ∧
    (ping_unipile_request cfg).timeout = 15 ∧
    (∀ e, w.oracle (ping_unipile_request cfg) = Except.error e →
      (ping_unipile cfg w).2 = Except.error e) := by
  refine ⟨rfl, rfl, rfl, rfl, rfl, rfl, ?_⟩
  intro e he
  simp [ping_unipile, doRequest, he]

/-- Claim C5, witness: on a failing network the single logged request is
the accounts GET and the failure comes back unchanged. -/
theorem ping_unipile_contract_witness :
    (ping_unipile cfg0 wBoom).1.log = [ping_unipile_request cfg0] ∧
    (ping_unipile cfg0 wBoom).2 = Except.error "boom" := by
  have h := ping_unipile_contract cfg0 wBoom
  exact ⟨h.1, h.2.2.2.2.2.2 "boom" rfl⟩

/-- Claim C6: whenever configuration loading succeeds, the base URL is
the DSN with all trailing slashes stripped (so it never ends in a
slash); and whenever either variable is empty or absent, the process
aborts with the RuntimeError before issuing any request or emitting any
event (in particular, before serving). -/
theorem loadConfig_contract (env : String → Option String) (w : NetWorld) :
    (∀ cfg, loadConfig env = Except.ok cfg →
        cfg.base_url = rstripSlash (envGet env "UNIPILE_DSN") ∧
        endsInSlash cfg.base_url = false) ∧
    ((envGet env "UNIPILE_DSN" = "" ∨ envGet env "UNIPILE_API_KEY" = "") →
      process_main env w =
        (w, Except.error "Missing UNIPILE_DSN or UNIPILE_API_KEY in .env")) := by
  constructor
  · intro cfg hok
    simp only [loadConfig] at hok
    by_cases hc : rstripSlash (envGet env "UNIPILE_DSN") = ""
        ∨ envGet env "UNIPILE_API_KEY" = ""
    · rw [if_pos hc] at hok
      exact absurd hok (by simp)
    · rw [if_neg hc] at hok
      injection hok with hcfg
      rw [← hcfg]
      exact ⟨rfl, rstripSlash_no_trailing _⟩
  · intro h
    have hcond : rstripSlash (envGet env "UNIPILE_DSN") = ""
        ∨ envGet env "UNIPILE_API_KEY" = "" := by
      cases h with
      | inl h1 => exact Or.inl (by rw [h1]; rfl)
      | inr h2 => exact Or.inr h2
    have hlc : loadConfig env =
        Except.error "Missing UNIPILE_DSN or UNIPILE_API_KEY in .env" := by
      simp only [loadConfig]
      rw [if_pos hcond]
    simp [process_main, hlc]

/-- Claim C6, witness: with both variables absent the process aborts
with the RuntimeError, and with the scenario DSN the loaded base URL is
the stripped value and carries no trailing slash. -/
theorem loadConfig_contract_witness :
    process_main envNone w0 =
      (w0, Except.error "Missing UNIPILE_DSN or UNIPILE_API_KEY in .env") ∧
    ("https://api.example.com" : String) = rstripSlash (envGet envEx "UNIPILE_DSN") ∧
    endsInSlash "https://api.example.com" = false := by
  refine ⟨(loadConfig_contract envNone w0).2 (Or.inl rfl), ?_, ?_⟩
  · exact ((loadConfig_contract envEx w0).1
      (Config.mk "https://api.example.com" "secret123") rfl).1
  · exact ((loadConfig_contract envEx w0).1
      (Config.mk "https://api.example.com" "secret123") rfl).2

/-- Claim C7: the startup block issues exactly one probe request, logs
its outcome (status code and body on success, the exception message on
failure), and in either case the trace ends with serving on port 5000:
a failed startup probe does not prevent the server from starting. -/
theorem startup_probe_then_serve (cfg : Config) (w : NetWorld) :
    (startup cfg w).1.log = w.log ++ [ping_unipile_request cfg] ∧
    ((∃ r, w.oracle (ping_unipile_request cfg) = Except.ok r ∧
        (startup cfg w).2 =
          [StartupEvent.logSuccess r.status_code r.text, StartupEvent.serve 5000]) ∨
     (∃ e, w.oracle (ping_unipile_request cfg) = Except.error e ∧
        (startup cfg w).2 =
          [StartupEvent.logFailure e, StartupEvent.serve 5000])) := by
  cases hor : w.oracle (ping_unipile_request cfg) with
  | ok r =>
    refine ⟨?_, Or.inl ⟨r, rfl, ?_⟩⟩ <;>
      simp [startup, ping_unipile, doRequest, hor]
  | error e =>
    refine ⟨?_, Or.inr ⟨e, rfl, ?_⟩⟩ <;>
      simp [startup, ping_unipile, doRequest, hor]

/-- Claim C8: in the spec scenario, loading the environment strips the
trailing slash and keeps the key; the probe request is a GET on the
accounts URL carrying the key header; and a 200 upstream answer with
the items body yields outer status 200 with the expected envelope. -/
theorem scenario_end_to_end :
    loadConfig envEx = Except.ok cfg8 ∧
    (ping_unipile_request cfg8).method = "GET" ∧
    (ping_unipile_request cfg8).url = "https://api.example.com/api/v1/accounts" ∧
    headerLookup (ping_unipile_request cfg8).headers "X-API-KEY" = some "secret123" ∧
    (health_unipile cfg8 w8).2 =
      (Json.obj
        [("ok", Json.bool true),
         ("status_code", Json.nat 200),
         ("response", Json.str itemsBody)],
       200) :=
  ⟨rfl, rfl, rfl, rfl, rfl⟩

/-- Claim C9: the health handler is total over every probe outcome; it
always returns a JSON object carrying an ok field, paired with an outer
status code, and exceptions from the probe never escape it. -/
theorem health_unipile_total (cfg : Config) (w : NetWorld) :
    ∃ fields status, (health_unipile cfg w).2 = (Json.obj fields, status) ∧
      (lookupField fields "ok").isSome = true := by
  cases hor : w.oracle (ping_unipile_request cfg) with
  | ok r =>
    refine ⟨[("ok", Json.bool r.ok),
             ("status_code", Json.nat r.status_code),
             ("response", Json.str r.text)],
            if r.ok then 200 else r.status_code, ?_, rfl⟩
    simp [health_unipile, ping_unipile, doRequest, hor]
  | error e =>
    refine ⟨[("ok", Json.bool false), ("error", Json.str e)], 500, ?_, rfl⟩
    simp [health_unipile, ping_unipile, doRequest, hor]

/-- Claim C10: stripping is complete and idempotent: appending any
number of slashes to a slash-free base and normalizing gives the base
back, the probe URL is then the base followed by one slash and the
accounts path, and normalizing an already-normalized string changes
nothing. -/
theorem rstrip_normalization (t : String) (n : Nat) (key s : String)
    (h : endsInSlash t = false) :
    rstripSlash (t ++ slashes n) = t ∧
    (ping_unipile_request (Config.mk (rstripSlash (t ++ slashes n)) key)).url
      = t ++ "/api/v1/accounts" ∧
    rstripSlash (rstripSlash s) = rstripSlash s := by
  have h1 := rstripSlash_append_slashes t n h
  refine ⟨h1, ?_, ?_⟩
  · show rstripSlash (t ++ slashes n) ++ "/api/v1/accounts" = t ++ "/api/v1/accounts"
    rw [h1]
  · show rstripSlash (rstripSlash s) = rstripSlash s
    unfold rstripSlash
    have hdata : (String.mk ((s.data.reverse.dropWhile isSlash).reverse)).data
        = (s.data.reverse.dropWhile isSlash).reverse := rfl
    rw [hdata, List.reverse_reverse, dropWhile_idem]

/-- Claim C10, witness: three trailing slashes on the example base are
all stripped, the probe URL is as expected, and normalizing a short
already-stripped string is a fixed point. -/
theorem rstrip_normalization_witness :
    rstripSlash ("https://api.example.com" ++ slashes 3) = "https://api.example.com" ∧
    (ping_unipile_request
        (Config.mk (rstripSlash ("https://api.example.com" ++ slashes 3)) "k")).url
      = "https://api.example.com" ++ "/api/v1/accounts" ∧
    rstripSlash (rstripSlash "a///") = rstripSlash "a///" :=
  rstrip_normalization "https://api.example.com" 3 "k" "a///" rfl
